import Mathlib

/-!
Shallow embedding of the two Houdini shelf-tool scripts
(`tools/finalization-checklist/src/finalization-checklist.py` and
`tools/viewport-screenshot/src/viewport-screenshot.py`) together with
theorems settling the behavioural claims about them.

Host-application services (node lookup, user dialogs, flipbook capture,
file saving) are modelled as explicit inputs; Python string and list
operations used by the scripts are re-implemented faithfully on
`List Char` / `List` values.
-/

namespace HoudiniTools

/-! ## Python string primitives used by the scripts -/

/-- Python substring-prefix test: does `s` start with `pat`? -/
def listStartsWith (pat s : List Char) : Bool :=
  match pat, s with
  | [], _ => true
  | _ :: _, [] => false
  | p :: ps, c :: cs => p == c && listStartsWith ps cs

/-- Python `pat in s` (substring containment; empty pattern is contained). -/
def containsSub (pat : List Char) : List Char → Bool
  | [] => listStartsWith pat []
  | c :: cs => listStartsWith pat (c :: cs) || containsSub pat cs

/-- Python `s.endswith(suf)`. -/
def listEndsWith (suf s : List Char) : Bool :=
  listStartsWith suf.reverse s.reverse

/-- Python `s.lower()` (ASCII-faithful; the scripts compare ASCII file names). -/
def pyLower (s : List Char) : List Char := s.map Char.toLower

/-- Python `s.strip()`: remove leading and trailing whitespace. -/
def pyStrip (s : List Char) : List Char :=
  ((s.dropWhile Char.isWhitespace).reverse.dropWhile Char.isWhitespace).reverse

/-- Python slice `s[a:b]` for character lists. -/
def pySlice (s : List Char) (a b : Nat) : List Char :=
  (s.drop a).take (b - a)

/-- Index of the last occurrence of `c` in `s` (Python `s.rfind(c)` returning
`none` for -1). -/
def rfindIdx (c : Char) (s : List Char) : Option Nat :=
  match s.reverse.findIdx? (· == c) with
  | none => none
  | some i => some (s.length - 1 - i)

/-- CPython `posixpath.splitext`: split off the extension at the last dot of
the base name, unless every character of the base name before that dot is
itself a dot. -/
def splitext (s : List Char) : List Char × List Char :=
  let sepIdx : Int := match rfindIdx '/' s with | none => -1 | some i => (i : Int)
  let dotIdx : Int := match rfindIdx '.' s with | none => -1 | some i => (i : Int)
  if sepIdx < dotIdx then
    let fileStart := (sepIdx + 1).toNat
    if (List.range (dotIdx.toNat - fileStart)).any
        (fun j => !(s.getD (fileStart + j) '.' == '.')) then
      (s.take dotIdx.toNat, s.drop dotIdx.toNat)
    else (s, [])
  else (s, [])

/-- CPython `posixpath.basename`: everything after the last slash. -/
def pyBasename (s : List Char) : List Char :=
  (s.reverse.takeWhile (fun c => !(c == '/'))).reverse

/-- CPython `posixpath.join` for two components, as used by the scripts. -/
def pjoin (a b : String) : String :=
  if listStartsWith ['/'] b.data then b
  else if a == "" then b
  else if listEndsWith ['/'] a.data then a ++ b
  else a ++ "/" ++ b

/-! ## The checklist item list

`CHECK_ITEMS` in finalization-checklist.py, lines 9-29.  In the Python
source the string literals on lines 20 and 21 are adjacent with no comma
between them, so Python concatenates them into a single list element. -/

/-- Line 20 of the source (the UV/texture-stretching label). -/
def uvLabel : String :=
  "No UV or texture stretching; verify texture paths are valid and UDIMs resolve correctly."

/-- Line 21 of the source (the heavy-sims-cached label). -/
def simsLabel : String :=
  "Heavy sims/meshes cached to disk; downstream reads from caches."

/-- The checklist labels, with lines 20 and 21 concatenated exactly as Python
evaluates the list literal. -/
def CHECK_ITEMS : List String := [
  "No error flags (red) or critical warnings anywhere in the network.",
  "All external file paths are relative ($HIP, $JOB) — no absolute C:/ or /Users/ paths.",
  "Parameters behave as intended; key sliders/ramps don’t break the graph.",
  "Procedural chains still work after changing inputs (robustness sanity check).",
  "Remove or bypass unused test geometry/nodes (scene hygiene).",
  "Node names are clear and grouped; network annotated with sticky notes/colors.",
  "Remove or bypass temporary debugging/visualization nodes.",
  "Basic lighting rig in place (no default headlight in final shots).",
  "Shot camera(s) framed, locked, and protected (avoid accidental nudges).",
  "Shaders finalized or clean procedural placeholders — no default gray giveaways.",
  "No UV or texture stretching; verify texture paths are valid and UDIMs resolve correctly."
    ++ "Heavy sims/meshes cached to disk; downstream reads from caches.",
  "Clear history & caches where safe (reduce file size, speed up load times).",
  "Display flags / viewport LODs optimized for smooth playback.",
  "All dependencies gathered into project folder (textures, caches, alembic, etc.).",
  "Final .hip saved with `_final` suffix (versioned and traceable).",
  "Required exports (EXR/MP4/ABC/FBX/etc.) completed per delivery specs.",
  "Scene opens cleanly on another machine (no missing plugins/paths).",
  "Final renders/playblast checked for artifacts, missing frames, or flicker."
]

/-! ## Persistence helpers (userData on /obj)

`_load_state` / `_save_state`, finalization-checklist.py lines 31-50.  The
node user-data slot holds text; `json.dumps` / `json.loads` are the Python
standard library pair, which round-trips every value `dumps` produces.  We
therefore model the slot contents as seen through `json.loads`: either no
text (key absent, or `userData` returned an empty string), text that
`json.loads` rejects, or text that parses to a JSON value.  The `time`
field stores a float; its value is irrelevant to every claim, so it is
carried as an opaque `Json` payload. -/

/-- JSON values, as exchanged with Python `json.dumps` / `json.loads`. -/
inductive Json where
  | null : Json
  | jbool : Bool → Json
  | jint : Int → Json
  | jstr : String → Json
  | jarr : List Json → Json
  | jobj : List (String × Json) → Json

/-- Contents of the `/obj` user-data slot for `STATE_KEY`, as seen through
`json.loads`. -/
inductive StoredText where
  | absent : StoredText
  | badJson : StoredText
  | value : Json → StoredText

/-- `_load_state` (lines 37-45).  The `Option` argument is `hou.node("/obj")`
(`none` when the node does not exist).  Missing node, missing/empty text and
unparseable text all yield the empty dict. -/
def _load_state : Option StoredText → Json
  | none => Json.jobj []
  | some .absent => Json.jobj []
  | some .badJson => Json.jobj []
  | some (.value j) => j

/-- `_save_state` (lines 47-50): overwrite the slot with
`json.dumps({"checked": checked_indices, "time": time.time()})`; a missing
`/obj` node leaves the store untouched. -/
def _save_state (objNode : Option StoredText) (checked_indices : List Int)
    (t : Json) : Option StoredText :=
  match objNode with
  | none => none
  | some _ =>
      some (.value (Json.jobj
        [("checked", Json.jarr (checked_indices.map Json.jint)), ("time", t)]))

/-- Python `dict` lookup on the key/value list produced by `json.loads`
(duplicate keys: the last occurrence wins, as in CPython). -/
def dictGet (kvs : List (String × Json)) (k : String) : Option Json :=
  match kvs with
  | [] => none
  | (k0, v0) :: rest =>
      match dictGet rest k with
      | some v => some v
      | none => if k0 == k then some v0 else none

/-- The elements of `set(saved.get("checked", []))` in
`FinalizationDialog.__init__` (lines 168-169).  Branches where Python would
raise (a non-dict `saved`, or a non-list `"checked"` value) are never reached
by the modelled flows: `_load_state` returns a dict on every failure and
`_save_state` always stores a dict with a list under `"checked"`. -/
def dialogCheckedVals (saved : Json) : List Json :=
  match saved with
  | Json.jobj kvs =>
      match dictGet kvs "checked" with
      | some (Json.jarr xs) => xs
      | _ => []
  | _ => []

/-- Python `i in checked_set` for an `int` index `i` against one stored JSON
element (`True == 1` and `False == 0` in Python). -/
def jsonIsInt (j : Json) (i : Int) : Bool :=
  match j with
  | Json.jint k => k == i
  | Json.jbool b => (if b then (1 : Int) else 0) == i
  | _ => false

/-- Python `i in checked_set` over the whole stored collection. -/
def memberInt (vals : List Json) (i : Int) : Bool :=
  vals.any (fun j => jsonIsInt j i)

/-- The check states after the restore loop of `__init__` (lines 170-172):
item `i` is checked exactly when `i` is in the saved set. -/
def restoreChecked (vals : List Json) : List Bool :=
  (List.range CHECK_ITEMS.length).map (fun i => memberInt vals (Int.ofNat i))

/-- `FinalizationDialog._collect_checked_indices` (lines 223-225). -/
def _collect_checked_indices (checks : List Bool) : List Int :=
  ((List.range checks.length).filter (fun i => checks.getD i false)).map
    (fun i => Int.ofNat i)

/-! ## Absolute-path scan

`_has_absolute_paths`, finalization-checklist.py lines 108-128.  The scan
iterates the four root locations and all their sub-children; we model the
flattened visit order as a list of parameter entries. -/

/-- One parameter as the scan visits it: the node path, the parameter name,
whether the parameter template type is String (line 116), and the value
`evalAsString` produced (`none` when evaluation raised, lines 117-120). -/
structure ParmEntry where
  nodePath : String
  parmName : String
  isString : Bool
  val : Option String

/-- The `is_abs` test of line 122:
`":/" in val or val.startswith("/") or (len(val) > 2 and val[1:3] == ":\\")`. -/
def is_abs (val : String) : Bool :=
  containsSub [':', '/'] val.data || listStartsWith ['/'] val.data ||
    (decide (val.data.length > 2) && (pySlice val.data 1 3 == [':', '\\']))

/-- Line 123: `"$HIP" in val or "$JOB" in val` (the scan skips the value when
either placeholder occurs). -/
def hasPlaceholder (val : String) : Bool :=
  containsSub "$HIP".data val.data || containsSub "$JOB".data val.data

/-- The report text of line 124. -/
def reportLine (e : ParmEntry) (v : String) : String :=
  e.nodePath ++ " : " ++ e.parmName ++ " = " ++ v

/-- The truncation marker of line 126. -/
def truncMarker : String := "… (truncated)"

/-- Whether the scan loop appends a report for this entry (lines 116-123). -/
def reportable (e : ParmEntry) : Bool :=
  e.isString &&
    (match e.val with
     | none => false
     | some v => !(v == "") && is_abs v && !hasPlaceholder v)

/-- The report text of an entry (meaningful on reportable entries, whose
value is always present). -/
def reportOf (e : ParmEntry) : String :=
  match e.val with
  | some v => reportLine e v
  | none => ""

/-- The scan loop with its accumulator `bad`, including the early return of
lines 125-127: after the append that takes `bad` past 50 entries, the marker
is appended and the whole list is returned. -/
def scanParms : List ParmEntry → List String → List String
  | [], bad => bad
  | e :: rest, bad =>
      if !e.isString then scanParms rest bad
      else
        match e.val with
        | none => scanParms rest bad
        | some v =>
            if v == "" then scanParms rest bad
            else if is_abs v && !hasPlaceholder v then
              let bad2 := bad ++ [reportLine e v]
              if bad2.length > 50 then bad2 ++ [truncMarker]
              else scanParms rest bad2
            else scanParms rest bad

/-- `_has_absolute_paths` on the flattened visit order. -/
def _has_absolute_paths (scene : List ParmEntry) : List String :=
  scanParms scene []

/-- Formalised from the claim wording, for comparison with `is_abs`: the
value starts with "/" or with a Windows drive prefix (a drive letter
followed by ":" and a slash or backslash). -/
def claimFlagged (val : String) : Bool :=
  listStartsWith ['/'] val.data ||
    (match val.data with
     | c :: ':' :: s :: _ => c.isAlpha && (s == '/' || s == '\\')
     | _ => false)


/-! ## Save-as-final

`_save_as_final`, finalization-checklist.py lines 130-140. -/

/-- Outcome of `_save_as_final`: the warning branch for an unsaved scene
(the function returns None), the unchanged-path branch (no save call), and
the rename branch (one `hou.hipFile.save` call on the derived path). -/
inductive SaveFinalResult where
  | needSaveFirst : SaveFinalResult
  | alreadyFinal : String → SaveFinalResult
  | savedAs : String → SaveFinalResult
deriving DecidableEq

/-- `_save_as_final` as a function of `hou.hipFile.path()` (the empty string
stands for a falsy path). -/
def _save_as_final (cur : String) : SaveFinalResult :=
  if cur == "" || cur == "untitled.hip" then .needSaveFirst
  else if listEndsWith "_final.hip".data (pyLower cur.data) then
    .alreadyFinal cur
  else
    .savedAs (String.mk (splitext cur.data).1 ++ "_final"
      ++ String.mk (splitext cur.data).2)

/-- Formalised from the claim wording, for comparison with the code: the
current path already ends in the "_final" suffix before the extension. -/
def claimEndsFinalBeforeExt (cur : String) : Bool :=
  listEndsWith "_final".data (splitext cur.data).1


/-! ## Screenshot path building (finalization-checklist.py lines 52-105)

`_hip_dir()` is `hou.expandString("$HIP")`, modelled as the input `hipDir`;
`_timestamp()` and `_active_view_label()` are host lookups modelled as the
inputs `timestamp` and `label`. -/

/-- Python `f"{n:04d}"`: decimal with zero padding to overall width 4. -/
def intPad4 (n : Int) : String :=
  let digits := (toString n.natAbs).data
  if n < 0 then
    String.mk ('-' :: (List.replicate (3 - digits.length) '0' ++ digits))
  else
    String.mk (List.replicate (4 - digits.length) '0' ++ digits)

/-- `_frame_str` (lines 75-79) for an integral frame value:
`f"f{int(round(hou.frame())):04d}"`. -/
def _frame_str (frame : Int) : String :=
  "f" ++ intPad4 frame

/-- The output path `_screenshot_viewport` builds (lines 88-92): the file
`{doc}_{label}_{frame}_{timestamp}[_{suffix}].jpg` inside
`os.path.join(hipDir, "screenshots")`. -/
def screenshotPath (hipDir hipPath label : String) (frame : Int)
    (timestamp custom_suffix : String) : String :=
  let base := (splitext (if hipPath == "" then "untitled.hip"
      else hipPath).data).1
  let fname := String.mk (pyBasename base) ++ "_" ++ label ++ "_"
      ++ _frame_str frame ++ "_" ++ timestamp
  let fname := if custom_suffix == "" then fname
      else fname ++ "_" ++ custom_suffix
  pjoin (pjoin hipDir "screenshots") (fname ++ ".jpg")

/-- `_screenshot_viewport` (lines 81-105): `none` when there is no Scene
Viewer, or when the `sv.flipbook` call raises (the `except` of line 104);
otherwise the image path. -/
def _screenshot_viewport (hasViewer flipbookOk : Bool)
    (hipDir hipPath label : String) (frame : Int)
    (timestamp custom_suffix : String) : Option String :=
  if !hasViewer then none
  else if flipbookOk then
    some (screenshotPath hipDir hipPath label frame timestamp custom_suffix)
  else none

/-! ## The standalone viewport-screenshot utility (viewport-screenshot.py) -/

/-- Python `s.split(sep)` for a one-character separator, as used on
line 37 (`selection.split("x")`). -/
def splitOnChar (c : Char) : List Char → List (List Char)
  | [] => [[]]
  | a :: rest =>
      let r := splitOnChar c rest
      if a == c then [] :: r
      else
        match r with
        | [] => [[a]]
        | g :: gs => (a :: g) :: gs

/-- Python `int(s)` on a decimal string: optional surrounding whitespace,
optional sign, then digits with single underscores allowed between digits
(CPython 3.6+). -/
def pyDigitsAux (acc : Nat) : List Char → Option Nat
  | [] => some acc
  | '_' :: c :: rest =>
      if c.isDigit then pyDigitsAux (acc * 10 + (c.toNat - 48)) rest else none
  | c :: rest =>
      if c.isDigit then pyDigitsAux (acc * 10 + (c.toNat - 48)) rest else none

/-- Digit-run parser for `pyInt`: at least one leading digit. -/
def pyDigits : List Char → Option Nat
  | [] => none
  | c :: rest => if c.isDigit then pyDigitsAux (c.toNat - 48) rest else none

/-- Sign handling for `pyInt`. -/
def pyIntCore : List Char → Option Int
  | '+' :: rest => (pyDigits rest).map (fun n => Int.ofNat n)
  | '-' :: rest => (pyDigits rest).map (fun n => -(Int.ofNat n))
  | s => (pyDigits s).map (fun n => Int.ofNat n)

/-- Python `int(s)` for a string (`int` strips whitespace itself, so this
also models `int(s.strip())` as written on lines 29-30). -/
def pyInt (s : String) : Option Int := pyIntCore (pyStrip s.data)

/-- The resolution menu of line 8. -/
def options : List String := ["1920x1080", "2560x1440", "3840x2160", "Custom..."]

/-- Outcome of one run of the standalone script: one of the `hou.Error`
aborts, or a single-frame capture request with output path, resolution and
frame. `pyException` marks an exception the script does not catch; it is
never reached for the fixed menu entries. -/
inductive ShotOutcome where
  | canceled : ShotOutcome
  | invalidResolution : ShotOutcome
  | noViewer : ShotOutcome
  | pyException : ShotOutcome
  | captured : String → Int × Int → Int → ShotOutcome
deriving DecidableEq

/-- Lines 19-38: resolve the resolution from the menu selection, the custom
dialog button (`0` is OK) and the two custom fields. -/
def chooseResolution (selection : String) (customBtn : Int)
    (customW customH : String) : Except ShotOutcome (Int × Int) :=
  if selection == "Custom..." then
    if customBtn != 0 then .error .canceled
    else
      match pyInt customW, pyInt customH with
      | some w, some h =>
          if w ≤ 0 || h ≤ 0 then .error .invalidResolution
          else .ok (w, h)
      | _, _ => .error .invalidResolution
  else
    match (splitOnChar 'x' selection.data).map
        (fun cs => pyInt (String.mk cs)) with
    | [some w, some h] => .ok (w, h)
    | _ => .error .pyException

/-- The standalone script (lines 7-65) as a function of its host inputs:
the `selectFromList` result, the `readMultiInput` result, Scene Viewer
presence, `$HIP`, the hip file path, the timestamp and the current frame. -/
def viewport_screenshot (indices : List (Fin options.length))
    (customBtn : Int) (customW customH : String) (hasViewer : Bool)
    (hipDir hipPath timestamp : String) (frame : Int) : ShotOutcome :=
  match indices with
  | [] => .canceled
  | i :: _ =>
      match chooseResolution (options.get i) customBtn customW customH with
      | .error e => e
      | .ok res =>
          if !hasViewer then .noViewer
          else
            let save_dir := hipDir ++ "/screenshots"
            let base := (splitext (if hipPath == "" then "untitled.hip"
                else hipPath).data).1
            let file_path := pjoin save_dir
              (String.mk (pyBasename base) ++ "_" ++ timestamp ++ ".jpg")
            .captured file_path res frame

/-- Formalised from the spec wording, for comparison: a filename of the
form `{doc}_{view}_{frame}_{timestamp}[_{suffix}].jpg`. -/
def claimShotName (doc view frame timestamp suffix : String) : String :=
  (if suffix == "" then doc ++ "_" ++ view ++ "_" ++ frame ++ "_" ++ timestamp
   else doc ++ "_" ++ view ++ "_" ++ frame ++ "_" ++ timestamp ++ "_" ++ suffix)
    ++ ".jpg"


/-! ## The finalize flow (`FinalizationDialog._on_finalize`, lines 254-283) -/

/-- Host inputs of one `_on_finalize` click: the dialog check states, the
answers the user gives to the two warning prompts (`0` is the Go
Back / Fix First button, which is also the default and close choice), the
flattened parameter scene, the current hip path, Scene Viewer presence,
flipbook success, and the inputs of the screenshot helper. -/
structure FinalizeEnv where
  checks : List Bool
  ansUnchecked : Int
  ansPaths : Int
  scene : List ParmEntry
  cur : String
  hasViewer : Bool
  flipbookOk : Bool
  hipDir : String
  label : String
  timestamp : String
  frame : Int

/-- Observable outcome of one `_on_finalize` click: which prompts were
shown, what `_persist_now` wrote, the `_save_as_final` outcome (`none` if
the flow returned before reaching it), the screenshot attempt and result,
the `_notify` text, and whether `self.accept()` ran. -/
structure FinalizeTrace where
  promptedUnchecked : Bool
  promptedPaths : Bool
  persistedState : Option (List Int)
  saveResult : Option SaveFinalResult
  screenshotAttempted : Bool
  screenshot : Option String
  statusMsg : Option String
  accepted : Bool
deriving DecidableEq

/-- `_on_finalize` (lines 254-283).  `_all_checked` (lines 243-245) guards
the first prompt; `_has_absolute_paths` guards the second; then the flow
persists, saves as final, takes the "final" screenshot and accepts.  When
`hou.hipFile.save(file_name=final_path)` has run, `hou.hipFile.path()` is
the final path, so the screenshot helper sees `p` (for the no-rename branch
`p` is the unchanged current path). -/
def _on_finalize (env : FinalizeEnv) : FinalizeTrace :=
  let needPrompt := !(env.checks.all (fun b => b))
  if needPrompt && (env.ansUnchecked == 0) then
    { promptedUnchecked := true, promptedPaths := false,
      persistedState := none, saveResult := none,
      screenshotAttempted := false, screenshot := none,
      statusMsg := none, accepted := false }
  else
    let bad_paths := _has_absolute_paths env.scene
    let promptPaths := !bad_paths.isEmpty
    if promptPaths && (env.ansPaths == 0) then
      { promptedUnchecked := needPrompt, promptedPaths := true,
        persistedState := none, saveResult := none,
        screenshotAttempted := false, screenshot := none,
        statusMsg := none, accepted := false }
    else
      let saved := _collect_checked_indices env.checks
      let finish : String → SaveFinalResult → FinalizeTrace := fun p sr =>
        let shot := _screenshot_viewport env.hasViewer env.flipbookOk
          env.hipDir p env.label env.frame env.timestamp "final"
        let msg := match shot with
          | some sp => "Saved as: " ++ p ++ "  |  Final screenshot: " ++ sp
          | none => "Saved as: " ++ p
        { promptedUnchecked := needPrompt, promptedPaths := promptPaths,
          persistedState := some saved, saveResult := some sr,
          screenshotAttempted := true, screenshot := shot,
          statusMsg := some msg, accepted := true }
      match _save_as_final env.cur with
      | .needSaveFirst =>
          { promptedUnchecked := needPrompt, promptedPaths := promptPaths,
            persistedState := some saved, saveResult := some .needSaveFirst,
            screenshotAttempted := false, screenshot := none,
            statusMsg := none, accepted := true }
      | .alreadyFinal p => finish p (.alreadyFinal p)
      | .savedAs p => finish p (.savedAs p)

/-- A concrete environment used to witness the finalize-flow theorems. -/
def sampleEnv : FinalizeEnv :=
  { checks := [false, true], ansUnchecked := 1, ansPaths := 1, scene := [],
    cur := "/job/shot.hip", hasViewer := true, flipbookOk := false,
    hipDir := "/job", label := "persp", timestamp := "20250101_120000",
    frame := 5 }

/-! ## Helper lemmas about the persistence model -/

theorem dictGet_saved (v t : Json) :
    dictGet [("checked", v), ("time", t)] "checked" = some v := by
  rfl

theorem any_map_eq {α β : Type} (f : α → β) (p : β → Bool) (l : List α) :
    (l.map f).any p = l.any (fun a => p (f a)) := by
  induction l with
  | nil => rfl
  | cons a l ih => simp [ih]

theorem any_filter_congr {α : Type} (p q : α → Bool) (l : List α)
    (h : ∀ a, q a = true → p a = true) :
    (l.filter p).any q = l.any q := by
  induction l with
  | nil => rfl
  | cons a l ih =>
    by_cases hp : p a = true
    · simp [List.filter_cons, hp, ih]
    · have hq : q a = false := by
        cases hqa : q a
        · rfl
        · exact absurd (h a hqa) hp
      simp [List.filter_cons, hp, hq, ih]

theorem mem_collect_checked (checks : List Bool) (i : Nat) :
    (Int.ofNat i ∈ _collect_checked_indices checks) ↔
      i < checks.length ∧ checks.getD i false = true := by
  unfold _collect_checked_indices
  rw [List.mem_map]
  constructor
  · rintro ⟨j, hj, hji⟩
    rw [List.mem_filter, List.mem_range] at hj
    have hje : j = i := Int.ofNat.inj hji
    subst hje
    exact hj
  · intro h
    exact ⟨i, by rw [List.mem_filter, List.mem_range]; exact h, rfl⟩

theorem restoreChecked_getD (vals : List Json) (j : Nat)
    (hj : j < CHECK_ITEMS.length) :
    (restoreChecked vals).getD j false = memberInt vals (Int.ofNat j) := by
  unfold restoreChecked
  rw [List.getD_eq_getElem?_getD, List.getElem?_map, List.getElem?_range hj]
  rfl

theorem restoreChecked_length (vals : List Json) :
    (restoreChecked vals).length = CHECK_ITEMS.length := by
  simp [restoreChecked]

theorem memberInt_map_jint (S : List Int) (i : Int) :
    memberInt (S.map Json.jint) i = S.any (fun k => k == i) := by
  induction S with
  | nil => rfl
  | cons a S ih =>
    show (jsonIsInt (Json.jint a) i || memberInt (S.map Json.jint) i)
        = (a == i || S.any (fun k => k == i))
    rw [ih]
    rfl

theorem scanParms_spec (scene : List ParmEntry) (bad : List String)
    (hb : bad.length ≤ 50) :
    scanParms scene bad =
      if bad.length + ((scene.filter reportable).map reportOf).length ≤ 50
      then bad ++ (scene.filter reportable).map reportOf
      else (bad ++ (scene.filter reportable).map reportOf).take 51
        ++ [truncMarker] := by
  induction scene generalizing bad with
  | nil =>
    simp only [scanParms, List.filter_nil, List.map_nil, List.length_nil,
      Nat.add_zero, List.append_nil]
    rw [if_pos hb]
  | cons e rest ih =>
    simp only [scanParms]
    cases hstr : e.isString with
    | false =>
      have hrep : reportable e = false := by simp [reportable, hstr]
      simp only [hstr, Bool.not_false, if_true, List.filter_cons, hrep,
        Bool.false_eq_true, if_false]
      exact ih bad hb
    | true =>
      simp only [hstr, Bool.not_true, Bool.false_eq_true, if_false]
      cases hval : e.val with
      | none =>
        have hrep : reportable e = false := by simp [reportable, hstr, hval]
        simp only [List.filter_cons, hrep, Bool.false_eq_true, if_false]
        exact ih bad hb
      | some v =>
        cases hemp : (v == "") with
        | true =>
          have hrep : reportable e = false := by
            simp [reportable, hstr, hval, hemp]
          simp only [hemp, if_true, List.filter_cons, hrep,
            Bool.false_eq_true, if_false]
          exact ih bad hb
        | false =>
          simp only [hemp, Bool.false_eq_true, if_false]
          cases hflag : (is_abs v && !hasPlaceholder v) with
          | false =>
            have hrep : reportable e = false := by
              simp [reportable, hstr, hval, hemp, hflag]
            simp only [hflag, Bool.false_eq_true, if_false, List.filter_cons,
              hrep]
            exact ih bad hb
          | true =>
            have hrep : reportable e = true := by
              simp [reportable, hstr, hval, hemp, hflag]
            have hout : reportOf e = reportLine e v := by simp [reportOf, hval]
            simp only [hflag, if_true, List.filter_cons, hrep, List.map_cons,
              hout]
            by_cases hlen : bad.length = 50
            · have hgt : (bad ++ [reportLine e v]).length > 50 := by
                simp only [List.length_append, List.length_cons, List.length_nil]
                omega
              rw [if_pos hgt]
              have hcond : ¬ (bad.length +
                  (reportLine e v :: (rest.filter reportable).map reportOf).length
                    ≤ 50) := by
                simp only [List.length_cons]
                omega
              rw [if_neg hcond]
              have h51 : (bad ++ [reportLine e v]).length = 51 := by
                simp only [List.length_append, List.length_cons, List.length_nil]
                omega
              rw [List.append_cons bad (reportLine e v)
                ((rest.filter reportable).map reportOf), ← h51, List.take_left]
            · have hle : bad.length < 50 := Nat.lt_of_le_of_ne hb hlen
              have hgt : ¬ ((bad ++ [reportLine e v]).length > 50) := by
                simp only [List.length_append, List.length_cons, List.length_nil]
                omega
              rw [if_neg hgt]
              have hb2 : (bad ++ [reportLine e v]).length ≤ 50 := by
                simp only [List.length_append, List.length_cons, List.length_nil]
                omega
              rw [ih (bad ++ [reportLine e v]) hb2]
              rw [List.append_cons bad (reportLine e v)
                ((rest.filter reportable).map reportOf)]
              refine if_congr ?_ rfl rfl
              simp only [List.length_append, List.length_cons, List.length_nil]
              omega


theorem listStartsWith_self_append (s t : List Char) :
    listStartsWith s (s ++ t) = true := by
  induction s with
  | nil => rfl
  | cons c cs ih => simp [listStartsWith, ih]

theorem listEndsWith_append (s l : List Char) :
    listEndsWith s (l ++ s) = true := by
  unfold listEndsWith
  rw [List.reverse_append]
  exact listStartsWith_self_append _ _

theorem string_data_append (a b : String) : (a ++ b).data = a.data ++ b.data := rfl

/-! ## Theorems -/

/-- Claim C10: the fixed checklist label list contains exactly 18 items, and
the UV/texture-stretching label and the heavy-sims-cached label concatenate
(adjacent literals, no comma) into the single checklist item at index 10. -/
theorem c10_check_items_concat :
    CHECK_ITEMS.length = 18 ∧ CHECK_ITEMS.getD 10 "" = uvLabel ++ simsLabel := by
  constructor
  · rfl
  · rfl

/-- Claim C9: loading persisted state is total.  With the `/obj` node
missing, the stored text absent/empty, or the stored text not valid JSON,
`_load_state` returns the empty dict, and the dialog then opens with all 18
items unchecked. -/
theorem c9_load_state_total :
    _load_state none = Json.jobj [] ∧
    _load_state (some .absent) = Json.jobj [] ∧
    _load_state (some .badJson) = Json.jobj [] ∧
    dialogCheckedVals (Json.jobj []) = [] ∧
    restoreChecked [] = List.replicate CHECK_ITEMS.length false := by
  refine ⟨rfl, rfl, rfl, rfl, ?_⟩
  decide

/-- Claim C8: every checked-index list the dialog persists lies in
[0, N) for N the number of checklist items; the restored UI state has exactly
N entries (so the restored checked set is a subset of [0, N)); and indices
outside [0, N) in previously stored state do not affect the restore loop. -/
theorem c8_checked_indices_in_range (checks : List Bool)
    (h : checks.length = CHECK_ITEMS.length) (S : List Int) :
    (∀ i ∈ _collect_checked_indices checks,
      0 ≤ i ∧ i < (CHECK_ITEMS.length : Int)) ∧
    (restoreChecked (S.map Json.jint)).length = CHECK_ITEMS.length ∧
    restoreChecked (S.map Json.jint) =
      restoreChecked ((S.filter
        (fun k => decide (0 ≤ k) && decide (k < (CHECK_ITEMS.length : Int)))).map
          Json.jint) := by
  refine ⟨?_, restoreChecked_length _, ?_⟩
  · intro i hi
    unfold _collect_checked_indices at hi
    rw [List.mem_map] at hi
    obtain ⟨j, hj, hji⟩ := hi
    rw [List.mem_filter, List.mem_range] at hj
    subst hji
    constructor
    · exact Int.ofNat_nonneg j
    · rw [Int.ofNat_eq_coe]
      rw [h] at hj
      exact_mod_cast hj.1
  · unfold restoreChecked
    refine List.map_congr_left ?_
    intro n hn
    rw [List.mem_range] at hn
    rw [memberInt_map_jint, memberInt_map_jint]
    have hcond : ∀ k : Int, (fun k => k == Int.ofNat n) k = true →
        (fun k => decide (0 ≤ k) && decide (k < (CHECK_ITEMS.length : Int))) k
          = true := by
      intro k hk
      have hk2 : k = Int.ofNat n := by simpa using hk
      subst hk2
      simp only [Bool.and_eq_true, decide_eq_true_eq]
      constructor
      · exact Int.ofNat_nonneg n
      · rw [Int.ofNat_eq_coe]
        exact_mod_cast hn
    rw [any_filter_congr
      (fun k => decide (0 ≤ k) && decide (k < (CHECK_ITEMS.length : Int)))
      (fun k => k == Int.ofNat n) S hcond]

/-- Claim C8 witness at a concrete check-state list and stored list. -/
theorem c8_checked_indices_in_range_witness :
    (∀ i ∈ _collect_checked_indices (List.replicate 18 true),
      0 ≤ i ∧ i < (CHECK_ITEMS.length : Int)) ∧
    (restoreChecked ([(-1), 5, 99].map Json.jint)).length = CHECK_ITEMS.length ∧
    restoreChecked ([(-1), 5, 99].map Json.jint) =
      restoreChecked (([(-1), 5, 99].filter
        (fun k => decide (0 ≤ k) && decide (k < (CHECK_ITEMS.length : Int)))).map
          Json.jint) :=
  c8_checked_indices_in_range (List.replicate 18 true) (by decide) [(-1), 5, 99]

/-- Claim C1: persist-then-reload round trip.  For any set of checklist
indices S inside [0, N), saving S through `_save_state` and reloading through
`_load_state`, the dialog restore loop and `_collect_checked_indices` yields
exactly the set S. -/
theorem c1_persist_roundtrip (S : List Nat) (t : Json) (prev : StoredText)
    (hS : ∀ i ∈ S, i < CHECK_ITEMS.length) (i : Nat) :
    (Int.ofNat i ∈ _collect_checked_indices (restoreChecked (dialogCheckedVals
      (_load_state (_save_state (some prev) (S.map Int.ofNat) t)))))
      ↔ i ∈ S := by
  have hvals : dialogCheckedVals (_load_state (_save_state (some prev)
      (S.map Int.ofNat) t)) = (S.map Int.ofNat).map Json.jint := by
    show dialogCheckedVals (Json.jobj
      [("checked", Json.jarr ((S.map Int.ofNat).map Json.jint)), ("time", t)]) = _
    simp only [dialogCheckedVals, dictGet_saved]
  rw [hvals, mem_collect_checked, restoreChecked_length]
  have hmem : ∀ j : Nat,
      memberInt ((S.map Int.ofNat).map Json.jint) (Int.ofNat j) =
        S.any (fun n => n == j) := by
    intro j
    rw [memberInt_map_jint, any_map_eq]
    refine congrArg _ ?_
    funext n
    show (Int.ofNat n == Int.ofNat j) = (n == j)
    cases hnj : (n == j) with
    | true =>
      have heq : n = j := by simpa using hnj
      subst heq
      simp
    | false =>
      have hne : n ≠ j := by simpa using hnj
      have hne2 : Int.ofNat n ≠ Int.ofNat j := fun hc => hne (Int.ofNat.inj hc)
      simpa using hne2
  constructor
  · rintro ⟨hi, hget⟩
    rw [restoreChecked_getD _ _ hi, hmem] at hget
    rw [List.any_eq_true] at hget
    obtain ⟨n, hn, hne⟩ := hget
    have hni : n = i := by simpa using hne
    subst hni
    exact hn
  · intro hiS
    have hi : i < CHECK_ITEMS.length := hS i hiS
    refine ⟨hi, ?_⟩
    rw [restoreChecked_getD _ _ hi, hmem, List.any_eq_true]
    exact ⟨i, hiS, by simp⟩

/-- Claim C1 witness at a concrete index set. -/
theorem c1_persist_roundtrip_witness :
    (Int.ofNat 2 ∈ _collect_checked_indices (restoreChecked (dialogCheckedVals
      (_load_state (_save_state (some .absent)
        ([0, 2, 17].map Int.ofNat) Json.null)))))
      ↔ 2 ∈ [0, 2, 17] :=
  c1_persist_roundtrip [0, 2, 17] Json.null .absent (by decide) 2

/-- Claim C2 (amended): the absolute-path scan flags exactly those string
parameter values that evaluate to a nonempty string satisfying `is_abs`
(containing ":/" anywhere, starting with "/", or having ":\x5c" as second and
third characters) and containing neither $HIP nor $JOB; the reported list is
capped at 51 match entries followed by the truncation marker. -/
theorem c2_path_scan_formula (scene : List ParmEntry) :
    _has_absolute_paths scene =
      if ((scene.filter reportable).map reportOf).length ≤ 50
      then (scene.filter reportable).map reportOf
      else ((scene.filter reportable).map reportOf).take 51
        ++ [truncMarker] := by
  unfold _has_absolute_paths
  rw [scanParms_spec scene [] (by simp)]
  simp only [List.length_nil, Nat.zero_add, List.nil_append]

/-- Claim C2 counterexample: a value that neither starts with "/" nor with a
Windows drive prefix is still flagged (it contains ":/"), and a scene with 51
matching values yields 51 reported matches followed by the marker, not 50. -/
theorem c2_path_scan_counterexample :
    claimFlagged "http://example.com" = false ∧
    _has_absolute_paths
      [⟨"/obj/geo1", "file", true, some "http://example.com"⟩] =
      ["/obj/geo1 : file = http://example.com"] ∧
    _has_absolute_paths (List.replicate 51
        (⟨"/obj/geo1", "file", true, some "/tmp/cache.bgeo"⟩ : ParmEntry)) =
      List.replicate 51 "/obj/geo1 : file = /tmp/cache.bgeo"
        ++ [truncMarker] := by
  refine ⟨rfl, rfl, ?_⟩
  decide


/-- Claim C3 counterexample: "/job/shot_final.hipnc" already ends in the
"_final" suffix before its extension, yet `_save_as_final` renames it again
instead of returning it unchanged. -/
theorem c3_save_as_final_counterexample :
    claimEndsFinalBeforeExt "/job/shot_final.hipnc" = true ∧
    _save_as_final "/job/shot_final.hipnc" =
      .savedAs "/job/shot_final_final.hipnc" := by
  constructor
  · decide
  · decide

/-- Claim C3 (amended): for every saved path (nonempty, not untitled.hip),
only the paths ending case-insensitively in "_final.hip" are returned
unchanged without a rename; every other saved path — whatever its
extension, .hipnc included — gets "_final" appended immediately before its
extension.  When the extension is ".hip" (case-insensitively), the
operation is additionally idempotent: running it again on the produced path
returns that path unchanged. -/
theorem c3_save_as_final_amended (cur : String)
    (h1 : cur ≠ "") (h2 : cur ≠ "untitled.hip") :
    (listEndsWith "_final.hip".data (pyLower cur.data) = true →
      _save_as_final cur = .alreadyFinal cur) ∧
    (listEndsWith "_final.hip".data (pyLower cur.data) = false →
      _save_as_final cur =
        .savedAs (String.mk (splitext cur.data).1 ++ "_final"
          ++ String.mk (splitext cur.data).2)) ∧
    (pyLower (splitext cur.data).2 = ".hip".data →
      _save_as_final (String.mk (splitext cur.data).1 ++ "_final"
          ++ String.mk (splitext cur.data).2) =
        .alreadyFinal (String.mk (splitext cur.data).1 ++ "_final"
          ++ String.mk (splitext cur.data).2)) := by
  have hb1 : (cur == "") = false := by
    simpa using h1
  have hb2 : (cur == "untitled.hip") = false := by
    simpa using h2
  set p : String := String.mk (splitext cur.data).1 ++ "_final"
      ++ String.mk (splitext cur.data).2 with hp
  have hpdata : p.data = (splitext cur.data).1 ++ "_final".data
      ++ (splitext cur.data).2 := by
    rw [hp, string_data_append, string_data_append]
  refine ⟨?_, ?_, ?_⟩
  · intro hfin
    unfold _save_as_final
    rw [hb1, hb2, hfin]
    rfl
  · intro hfin
    unfold _save_as_final
    rw [hb1, hb2, hfin]
    rfl
  · intro hext
    have hplow : pyLower p.data = pyLower (splitext cur.data).1
        ++ "_final.hip".data := by
      rw [hpdata]
      unfold pyLower
      rw [List.map_append, List.map_append, List.append_assoc]
      refine congrArg _ ?_
      have h3 : List.map Char.toLower "_final".data = "_final".data := by
        decide
      have h4 : List.map Char.toLower (splitext cur.data).2
          = ".hip".data := hext
      rw [h3, h4]
      decide
    have hpl : listEndsWith "_final.hip".data (pyLower p.data) = true := by
      rw [hplow]
      exact listEndsWith_append _ _
    have hpn1 : (p == "") = false := by
      have : p ≠ "" := by
        intro hc
        have hd := congrArg String.data hc
        rw [hpdata] at hd
        simp at hd
      simpa using this
    have hpn2 : (p == "untitled.hip") = false := by
      have : p ≠ "untitled.hip" := by
        intro hc
        rw [hc] at hpl
        revert hpl
        decide
      simpa using this
    unfold _save_as_final
    rw [hpn1, hpn2, hpl]
    rfl

/-- Claim C3 witness: applying the amended statement at "/job/shot.hip". -/
theorem c3_save_as_final_witness :
    (listEndsWith "_final.hip".data (pyLower "/job/shot.hip".data) = true →
      _save_as_final "/job/shot.hip" = .alreadyFinal "/job/shot.hip") ∧
    (listEndsWith "_final.hip".data (pyLower "/job/shot.hip".data) = false →
      _save_as_final "/job/shot.hip" =
        .savedAs (String.mk (splitext "/job/shot.hip".data).1 ++ "_final"
          ++ String.mk (splitext "/job/shot.hip".data).2)) ∧
    (pyLower (splitext "/job/shot.hip".data).2 = ".hip".data →
      _save_as_final (String.mk (splitext "/job/shot.hip".data).1 ++ "_final"
          ++ String.mk (splitext "/job/shot.hip".data).2) =
        .alreadyFinal (String.mk (splitext "/job/shot.hip".data).1
          ++ "_final" ++ String.mk (splitext "/job/shot.hip".data).2)) :=
  c3_save_as_final_amended "/job/shot.hip" (by decide) (by decide)



/-- Claim C4: with the Custom entry selected and the dialog confirmed, the
run aborts with the invalid-resolution error exactly when the width or the
height fails to parse as an integer or is non-positive (and then nothing is
captured); with a viewer present and a valid positive pair, the run proceeds
to a capture at that resolution. -/
theorem c4_custom_resolution_validation (customW customH : String)
    (hasViewer : Bool) (hipDir hipPath timestamp : String) (frame : Int) :
    (viewport_screenshot [⟨3, by decide⟩] 0 customW customH hasViewer hipDir
        hipPath timestamp frame = .invalidResolution ↔
      ¬ ∃ w h : Int, pyInt customW = some w ∧ pyInt customH = some h ∧
          0 < w ∧ 0 < h) ∧
    (∀ w h : Int, pyInt customW = some w → pyInt customH = some h →
      0 < w → 0 < h →
      viewport_screenshot [⟨3, by decide⟩] 0 customW customH true hipDir
        hipPath timestamp frame =
        .captured (pjoin (hipDir ++ "/screenshots")
          (String.mk (pyBasename (splitext (if hipPath == "" then
            "untitled.hip" else hipPath).data).1) ++ "_" ++ timestamp
            ++ ".jpg")) (w, h) frame) := by
  have hrun : ∀ hv : Bool,
      viewport_screenshot [⟨3, by decide⟩] 0 customW customH hv hipDir
        hipPath timestamp frame =
      (match chooseResolution "Custom..." 0 customW customH with
       | .error e => e
       | .ok res =>
           if !hv then ShotOutcome.noViewer
           else ShotOutcome.captured (pjoin (hipDir ++ "/screenshots")
             (String.mk (pyBasename (splitext (if hipPath == "" then
               "untitled.hip" else hipPath).data).1) ++ "_" ++ timestamp
               ++ ".jpg")) res frame) := fun hv => rfl
  have hchoose : chooseResolution "Custom..." 0 customW customH =
      (match pyInt customW, pyInt customH with
       | some w, some h =>
           if w ≤ 0 || h ≤ 0 then Except.error ShotOutcome.invalidResolution
           else Except.ok (w, h)
       | _, _ => Except.error ShotOutcome.invalidResolution) := rfl
  have hchoose2 : ∀ w h : Int, pyInt customW = some w →
      pyInt customH = some h →
      chooseResolution "Custom..." 0 customW customH =
        if (decide (w ≤ 0) || decide (h ≤ 0)) = true
        then Except.error ShotOutcome.invalidResolution
        else Except.ok (w, h) := by
    intro w h hw hh
    rw [hchoose, hw, hh]
  constructor
  · rcases hw : pyInt customW with _ | w <;> rcases hh : pyInt customH with _ | h
    · rw [hrun hasViewer, hchoose, hw, hh]
      refine ⟨fun _ => ?_, fun _ => rfl⟩
      rintro ⟨w', h', hw', hh', hw0, hh0⟩
      exact Option.noConfusion hw'
    · rw [hrun hasViewer, hchoose, hw, hh]
      refine ⟨fun _ => ?_, fun _ => rfl⟩
      rintro ⟨w', h', hw', hh', hw0, hh0⟩
      exact Option.noConfusion hw'
    · rw [hrun hasViewer, hchoose, hw, hh]
      refine ⟨fun _ => ?_, fun _ => rfl⟩
      rintro ⟨w', h', hw', hh', hw0, hh0⟩
      exact Option.noConfusion hh'
    · rw [hrun hasViewer, hchoose2 w h hw hh]
      cases hc : (decide (w ≤ 0) || decide (h ≤ 0)) with
      | true =>
        refine ⟨fun _ => ?_, fun _ => rfl⟩
        rintro ⟨w', h', hw', hh', hw0, hh0⟩
        obtain rfl : w' = w := (Option.some.inj hw').symm
        obtain rfl : h' = h := (Option.some.inj hh').symm
        rw [Bool.or_eq_true, decide_eq_true_eq, decide_eq_true_eq] at hc
        omega
      | false =>
        have hpos : 0 < w ∧ 0 < h := by
          rw [Bool.or_eq_false_iff, decide_eq_false_iff_not,
            decide_eq_false_iff_not] at hc
          omega
        constructor
        · intro hcap
          exfalso
          cases hasViewer with
          | false => exact ShotOutcome.noConfusion hcap
          | true => exact ShotOutcome.noConfusion hcap
        · intro hne
          exact absurd ⟨w, h, rfl, rfl, hpos.1, hpos.2⟩ hne
  · intro w h hw hh hw0 hh0
    rw [hrun true, hchoose2 w h hw hh]
    cases hc : (decide (w ≤ 0) || decide (h ≤ 0)) with
    | true =>
      exfalso
      rw [Bool.or_eq_true, decide_eq_true_eq, decide_eq_true_eq] at hc
      omega
    | false =>
      rfl

/-- Claim C4 witness at the concrete pair (" 800 ", "600") with a viewer. -/
theorem c4_custom_resolution_validation_witness :
    viewport_screenshot [⟨3, by decide⟩] 0 " 800 " "600" true "/job"
      "/job/shot.hip" "20250101_120000" 5 =
      .captured "/job/screenshots/shot_20250101_120000.jpg" (800, 600) 5 := by
  have h := (c4_custom_resolution_validation " 800 " "600" true "/job"
    "/job/shot.hip" "20250101_120000" 5).2 800 600 (by decide) (by decide)
    (by decide) (by decide)
  rw [h]
  rfl

/-- Claim C5 counterexample: the standalone utility's output path has no
view and no frame component.  The same path is produced at frames 5 and 6,
the path does not contain the frame string "f0005", while the claimed
format places the frame between view and timestamp. -/
theorem c5_screenshot_path_counterexample :
    viewport_screenshot [⟨0, by decide⟩] 0 "" "" true "/job" "/job/shot.hip"
      "20250101_120000" 5 =
      .captured "/job/screenshots/shot_20250101_120000.jpg" (1920, 1080) 5 ∧
    viewport_screenshot [⟨0, by decide⟩] 0 "" "" true "/job" "/job/shot.hip"
      "20250101_120000" 6 =
      .captured "/job/screenshots/shot_20250101_120000.jpg" (1920, 1080) 6 ∧
    containsSub (_frame_str 5).data
      "/job/screenshots/shot_20250101_120000.jpg".data = false ∧
    claimShotName "shot" "persp" (_frame_str 5) "20250101_120000" "" =
      "shot_persp_f0005_20250101_120000.jpg" := by
  refine ⟨rfl, rfl, by decide, by decide⟩

/-- Claim C5 (amended): the checklist tool writes screenshots to the
`screenshots` directory beside the document with filenames
`{doc}_{view}_{frame}_{timestamp}[_{suffix}].jpg`; the standalone utility
writes to the same directory but its filename is `{doc}_{timestamp}.jpg`,
computed from the file name and timestamp only. -/
theorem c5_screenshot_paths_amended (hipDir hipPath label : String)
    (frame : Int) (timestamp suffix : String) :
    screenshotPath hipDir hipPath label frame timestamp suffix =
      pjoin (pjoin hipDir "screenshots")
        (claimShotName (String.mk (pyBasename (splitext (if hipPath == ""
          then "untitled.hip" else hipPath).data).1)) label
          (_frame_str frame) timestamp suffix) ∧
    (∀ customBtn customW customH,
      viewport_screenshot [⟨0, by decide⟩] customBtn customW customH true
        hipDir hipPath timestamp frame =
        .captured (pjoin (hipDir ++ "/screenshots")
          (String.mk (pyBasename (splitext (if hipPath == "" then
            "untitled.hip" else hipPath).data).1) ++ "_" ++ timestamp
            ++ ".jpg")) (1920, 1080) frame) := by
  constructor
  · unfold screenshotPath claimShotName
    cases hs : (suffix == "") with
    | true => rfl
    | false => rfl
  · intro customBtn customW customH
    rfl


/-- Claim C5 witness at concrete arguments. -/
theorem c5_screenshot_paths_amended_witness :
    screenshotPath "/job" "/job/shot.hip" "persp" 5 "20250101_120000"
        "final" =
      pjoin (pjoin "/job" "screenshots")
        (claimShotName (String.mk (pyBasename (splitext (if "/job/shot.hip"
          == "" then "untitled.hip" else "/job/shot.hip").data).1)) "persp"
          (_frame_str 5) "20250101_120000" "final") ∧
    (∀ customBtn customW customH,
      viewport_screenshot [⟨0, by decide⟩] customBtn customW customH true
        "/job" "/job/shot.hip" "20250101_120000" 5 =
        .captured (pjoin ("/job" ++ "/screenshots")
          (String.mk (pyBasename (splitext (if "/job/shot.hip" == "" then
            "untitled.hip" else "/job/shot.hip").data).1) ++ "_"
            ++ "20250101_120000" ++ ".jpg")) (1920, 1080) 5) :=
  c5_screenshot_paths_amended "/job" "/job/shot.hip" "persp" 5
    "20250101_120000" "final"



/-- Claim C6: when not every item is checked, the warning prompt is shown;
choosing Proceed leaves the rest of the flow exactly as when all items are
checked (so unchecked items never block it); with all items checked the
prompt does not appear. -/
theorem c6_finalize_unchecked_prompt (env : FinalizeEnv) :
    (env.checks.all (fun b => b) = false →
      (_on_finalize env).promptedUnchecked = true) ∧
    (env.checks.all (fun b => b) = false → env.ansUnchecked ≠ 0 →
      ((_on_finalize env).promptedPaths =
        (_on_finalize { env with
          checks := List.replicate env.checks.length true }).promptedPaths ∧
       (_on_finalize env).saveResult =
        (_on_finalize { env with
          checks := List.replicate env.checks.length true }).saveResult ∧
       (_on_finalize env).screenshot =
        (_on_finalize { env with
          checks := List.replicate env.checks.length true }).screenshot ∧
       (_on_finalize env).statusMsg =
        (_on_finalize { env with
          checks := List.replicate env.checks.length true }).statusMsg ∧
       (_on_finalize env).accepted =
        (_on_finalize { env with
          checks := List.replicate env.checks.length true }).accepted)) ∧
    (env.checks.all (fun b => b) = true →
      (_on_finalize env).promptedUnchecked = false) := by
  have hrep : (List.replicate env.checks.length true).all (fun b => b)
      = true := by
    rw [List.all_eq_true]
    intro b hb
    exact ((List.eq_of_mem_replicate hb) ▸ rfl)
  refine ⟨?_, ?_, ?_⟩
  · intro hall
    unfold _on_finalize
    rw [hall]
    simp only [Bool.not_false, Bool.true_and]
    split
    · rfl
    · split
      · rfl
      · split <;> rfl
  · intro hall hans
    have hans2 : (env.ansUnchecked == 0) = false := by
      simpa using hans
    unfold _on_finalize
    simp only [hall, hrep, hans2, Bool.not_false, Bool.not_true,
      Bool.true_and, Bool.false_and, Bool.and_false, Bool.false_eq_true,
      if_false]
    by_cases hbp : (!(_has_absolute_paths env.scene).isEmpty
        && (env.ansPaths == 0)) = true
    · rw [if_pos hbp, if_pos hbp]
      exact ⟨rfl, rfl, rfl, rfl, rfl⟩
    · rw [if_neg hbp, if_neg hbp]
      cases hsr : _save_as_final env.cur <;>
        exact ⟨rfl, rfl, rfl, rfl, rfl⟩
  · intro hall
    unfold _on_finalize
    rw [hall]
    simp only [Bool.not_true, Bool.false_and, Bool.false_eq_true, if_false]
    split
    · rfl
    · split <;> rfl



/-- Claim C6 witness at `sampleEnv` (one unchecked item, Proceed chosen). -/
theorem c6_finalize_unchecked_prompt_witness :
    (_on_finalize sampleEnv).promptedUnchecked = true ∧
    (_on_finalize sampleEnv).accepted =
      (_on_finalize { sampleEnv with
        checks := List.replicate sampleEnv.checks.length true }).accepted := by
  have h := c6_finalize_unchecked_prompt sampleEnv
  exact ⟨h.1 (by decide), (h.2.1 (by decide) (by decide)).2.2.2.2⟩

/-- Claim C7: a missing viewer or a flipbook exception makes
`_screenshot_viewport` return `none` rather than propagate; in the finalize
flow a failing final screenshot leaves the save-as-final step, its inline
status message and the dialog acceptance untouched. -/
theorem c7_screenshot_failure_nonfatal (env : FinalizeEnv)
    (hall : env.checks.all (fun b => b) = true)
    (hbad : _has_absolute_paths env.scene = [])
    (hflip : env.flipbookOk = false) :
    (∀ hv : Bool, ∀ hipDir hipPath label timestamp suffix : String,
      ∀ frame : Int,
      _screenshot_viewport hv false hipDir hipPath label frame timestamp
        suffix = none ∧
      _screenshot_viewport false env.flipbookOk hipDir hipPath label frame
        timestamp suffix = none) ∧
    ((_on_finalize env).screenshot = none ∧
     (_on_finalize env).saveResult = some (_save_as_final env.cur) ∧
     (_on_finalize env).accepted = true ∧
     (∀ p, _save_as_final env.cur = .savedAs p →
       (_on_finalize env).statusMsg = some ("Saved as: " ++ p))) := by
  constructor
  · intro hv hipDir hipPath label timestamp suffix frame
    constructor
    · cases hv <;> rfl
    · rfl
  · unfold _on_finalize
    simp only [hall, hflip, hbad, Bool.not_true, Bool.false_and,
      Bool.false_eq_true, if_false, List.isEmpty_nil, Bool.and_false]
    cases hsr : _save_as_final env.cur with
    | needSaveFirst =>
      refine ⟨rfl, rfl, rfl, ?_⟩
      intro p hp
      exact SaveFinalResult.noConfusion hp
    | alreadyFinal q =>
      cases hhv : env.hasViewer with
      | false =>
        refine ⟨rfl, rfl, rfl, ?_⟩
        intro p hp
        exact SaveFinalResult.noConfusion hp
      | true =>
        refine ⟨rfl, rfl, rfl, ?_⟩
        intro p hp
        exact SaveFinalResult.noConfusion hp
    | savedAs q =>
      cases hhv : env.hasViewer with
      | false =>
        refine ⟨rfl, rfl, rfl, ?_⟩
        intro p hp
        obtain rfl : q = p := SaveFinalResult.savedAs.inj hp
        rfl
      | true =>
        refine ⟨rfl, rfl, rfl, ?_⟩
        intro p hp
        obtain rfl : q = p := SaveFinalResult.savedAs.inj hp
        rfl

/-- Claim C7 witness: all items checked, clean scene, flipbook failing. -/
theorem c7_screenshot_failure_nonfatal_witness :
    (_on_finalize { sampleEnv with checks := [true] }).screenshot = none ∧
    (_on_finalize { sampleEnv with checks := [true] }).saveResult =
      some (_save_as_final "/job/shot.hip") ∧
    (_on_finalize { sampleEnv with checks := [true] }).accepted = true ∧
    (_on_finalize { sampleEnv with checks := [true] }).statusMsg =
      some ("Saved as: " ++ "/job/shot_final.hip") := by
  have h := c7_screenshot_failure_nonfatal { sampleEnv with checks := [true] }
    (by decide) (by decide) (by decide)
  exact ⟨h.2.1, h.2.2.1, h.2.2.2.1,
    h.2.2.2.2 "/job/shot_final.hip" (by decide)⟩


end HoudiniTools
